import Mathlib

/-!
Shallow embedding of the ticket lifecycle and assignment engine of the
ticket-service repository (Go / Fiber).  The definitions below translate,
clause by clause, the service layer (`TicketService` in
internal/service/ticket_service.go, `AssignmentService` in the assignment
service file) and the domain model (internal/domain).  Repository
collaborators (postgres-backed stores) are modelled by passing their
answers as explicit parameters: a `GetByID` result becomes an
`Option` argument (`none` = pgx.ErrNoRows), a `List` result becomes a
`List` argument, and the rows a mutation writes are returned explicitly.
Event publication (`publishEvent`, fire-and-forget, errors swallowed) has
no observable effect on the engine state and is not modelled.
-/

namespace TicketSvc

/-- Go `domain.TicketStatus` (internal/domain/ticket.go). -/
inductive TicketStatus where
  | Open
  | InProgress
  | PendingUser
  | Resolved
  | Closed
  | Cancelled
deriving DecidableEq, Repr

/-- Go `domain.TicketPriority` is a string; `unset` models the empty
string `""` used as the not-supplied sentinel in `CreateTicket`. -/
inductive TicketPriority where
  | unset
  | Low
  | Medium
  | High
  | Urgent
deriving DecidableEq, Repr

/-- Go `domain.StaffRole`. -/
inductive StaffRole where
  | Agent
  | TeamLead
  | Admin
deriving DecidableEq, Repr

/-- Go `domain.TicketMessageType`. -/
inductive TicketMessageType where
  | PublicReply
  | InternalNote
  | SystemEvent
deriving DecidableEq, Repr

/-- Go `domain.MessageAuthorType`. -/
inductive MessageAuthorType where
  | User
  | Staff
  | System
deriving DecidableEq, Repr

/-- Go `domain.SubjectType`. -/
inductive SubjectType where
  | User
  | Staff
deriving DecidableEq, Repr

/-- Go `domain.TicketChangeType`. -/
inductive TicketChangeType where
  | StatusChange
  | AssigneeChange
  | PriorityChange
  | TeamChange
  | DepartmentChange
  | TagsChange
deriving DecidableEq, Repr

/-- Go `domain.Ticket`.  Timestamps are modelled as `Nat`; `CreatedAt`
and `UpdatedAt` are set by the database and never read by the engine, so
they are carried unchanged. -/
structure Ticket where
  id : String
  externalKey : String
  requesterId : String
  departmentId : String
  teamId : Option String
  assigneeId : Option String
  title : String
  description : String
  status : TicketStatus
  priority : TicketPriority
  tags : List String
  createdAt : Nat
  updatedAt : Nat
  closedAt : Option Nat
deriving DecidableEq, Repr

/-- Go `domain.StaffMember` (auth fields omitted: never read by the engine). -/
structure StaffMember where
  id : String
  role : StaffRole
  departmentId : Option String
  teamId : Option String
  active : Bool
  createdAt : Nat
deriving DecidableEq, Repr

/-- Go `domain.Team` (name/description omitted: never read by the engine). -/
structure Team where
  id : String
  departmentId : String
  isActive : Bool
deriving DecidableEq, Repr

/-- Go `domain.Department` (name/description omitted). -/
structure Department where
  id : String
  isActive : Bool
deriving DecidableEq, Repr

/-- Go `domain.AttachmentReference`. -/
structure AttachmentReference where
  id : String
  ticketMessageId : String
  storageKey : String
  fileName : String
  mimeType : String
  sizeBytes : Int
deriving DecidableEq, Repr

/-- Go `domain.TicketMessage`. -/
structure TicketMessage where
  id : String
  ticketId : String
  authorType : MessageAuthorType
  authorId : Option String
  messageType : TicketMessageType
  body : String
  attachments : List AttachmentReference
deriving DecidableEq, Repr

/-- Go `service.MessageAttachmentInput`. -/
structure MessageAttachmentInput where
  storageKey : String
  fileName : String
  mimeType : String
  sizeBytes : Int
deriving DecidableEq, Repr

/-- The `map[string]any` payloads stored in `TicketHistory.OldValue` /
`NewValue`.  Each constructor is one of the concrete map shapes built by
the `record*` helpers of the two services. -/
inductive HistoryValue where
  | statusVal (status : TicketStatus)
  | statusCommentVal (status : TicketStatus) (comment : String)
  | priorityVal (priority : TicketPriority)
  | assigneeVal (assigneeStaffId : Option String)
  | teamVal (teamId : Option String)
  | departmentVal (departmentId : String)
deriving DecidableEq, Repr

/-- Go `domain.TicketHistory` (`ID`/`CreatedAt` are database-assigned on
insert and never read back by the engine, so they are omitted from the
row the engine builds). -/
structure TicketHistory where
  ticketId : String
  changedByType : MessageAuthorType
  changedById : Option String
  changeType : TicketChangeType
  oldValue : HistoryValue
  newValue : HistoryValue
deriving DecidableEq, Repr

/-- Errors returned by the two services.  `message` models a plain
`errors.New` from the ticket service; the rest model the
`pkg/util/errorutil` constructors used by the assignment service. -/
inductive SvcError where
  | message (msg : String)
  | notFound (resource : String)
  | unauthorized (msg : String)
  | forbidden (msg : String)
  | conflict (msg : String)
  | infra
deriving DecidableEq, Repr

/-- Predicate `staffTeamMatches` is the clause
`staff.TeamID != nil && ticket.TeamID != nil && *staff.TeamID == *ticket.TeamID`. -/
def staffTeamMatches (staff : StaffMember) (ticket : Ticket) : Bool :=
  match staff.teamId, ticket.teamId with
  | some a, some b => a == b
  | _, _ => false

/-- Predicate `staffDeptMatches` is the clause
`staff.DepartmentID != nil && *staff.DepartmentID == ticket.DepartmentID`. -/
def staffDeptMatches (staff : StaffMember) (ticket : Ticket) : Bool :=
  match staff.departmentId with
  | some d => d == ticket.departmentId
  | none => false

/-- Go `TicketService.staffCanAccessTicket` (ticket service, scope check). -/
def staffCanAccessTicket : Option StaffMember → Ticket → Bool
  | none, _ => false
  | some staff, ticket =>
    if staff.role = StaffRole.Admin then true
    else if staffTeamMatches staff ticket then true
    else if staffDeptMatches staff ticket then true
    else false

/-- Go `AssignmentService.staffCanAccess` — duplicated verbatim in the Go
source of the assignment service, with the same body. -/
def staffCanAccess : Option StaffMember → Ticket → Bool
  | none, _ => false
  | some staff, ticket =>
    if staff.role = StaffRole.Admin then true
    else if staffTeamMatches staff ticket then true
    else if staffDeptMatches staff ticket then true
    else false

/-- Go `AssignmentService.staffMatchesTicketScope`: like `staffCanAccess`
but without the ADMIN bypass. -/
def staffMatchesTicketScope : Option StaffMember → Ticket → Bool
  | none, _ => false
  | some staff, ticket =>
    if staffTeamMatches staff ticket then true
    else if staffDeptMatches staff ticket then true
    else false

/-- The `allowedTransitions` map of the ticket service.  A Go map lookup
of a missing key yields the zero value (empty slice), matching the
total function here. -/
def allowedTransitions : TicketStatus → List TicketStatus
  | TicketStatus.Open => [TicketStatus.InProgress, TicketStatus.Cancelled]
  | TicketStatus.InProgress =>
      [TicketStatus.PendingUser, TicketStatus.Resolved, TicketStatus.Cancelled]
  | TicketStatus.PendingUser =>
      [TicketStatus.InProgress, TicketStatus.Resolved, TicketStatus.Cancelled]
  | TicketStatus.Resolved => [TicketStatus.Closed, TicketStatus.InProgress]
  | TicketStatus.Closed => []
  | TicketStatus.Cancelled => []

/-- Go `isValidTransition(current, next)`: linear scan of the allowed list. -/
def isValidTransition (current next : TicketStatus) : Bool :=
  (allowedTransitions current).contains next

/-- Go `selectIndex(key, length)` of the assignment service: sum of the
character codes (Go ranges over runes, so Unicode code points) modulo
`length`, with a zero-length guard. -/
def selectIndex (key : String) (length : Nat) : Nat :=
  if length = 0 then 0
  else (key.data.map Char.toNat).sum % length

/-- The comparator of the `sort.Slice(staffList, …CreatedAt.Before…)`
call in `AutoAssignTicket`: order by creation time. -/
def staffLE (a b : StaffMember) : Bool := a.createdAt ≤ b.createdAt

/-- The `sort.Slice` call itself: sort eligible staff by creation time
ascending (any comparison sort refines Go's `sort.Slice`). -/
def sortStaff (staffList : List StaffMember) : List StaffMember :=
  staffList.mergeSort staffLE

/-- Go `generateTicketKey`: `"TCK-" + ToUpper(ReplaceAll(uuid, "-", "")[:8])`.
The fresh `uuid.NewString()` result is passed in as `uuidStr`;
`ReplaceAll(s, "-", "")` deletes every dash. -/
def generateTicketKey (uuidStr : String) : String :=
  "TCK-" ++ ⟨((uuidStr.data.filter (fun c => c ≠ '-')).take 8).map Char.toUpper⟩

/-- The row built by `TicketService.recordStatusChange`: old value is
`{"status": old}`, new value is `{"status": new, "comment": comment}`. -/
def statusChangeRow (actorType : MessageAuthorType) (actorId : Option String)
    (ticketId : String) (oldStatus newStatus : TicketStatus) (comment : String) :
    TicketHistory :=
  { ticketId := ticketId
    changedByType := actorType
    changedById := actorId
    changeType := TicketChangeType.StatusChange
    oldValue := HistoryValue.statusVal oldStatus
    newValue := HistoryValue.statusCommentVal newStatus comment }

/-- The row built by `TicketService.recordPriorityChange`. -/
def priorityChangeRow (actorType : MessageAuthorType) (actorId : Option String)
    (ticketId : String) (oldPriority newPriority : TicketPriority) : TicketHistory :=
  { ticketId := ticketId
    changedByType := actorType
    changedById := actorId
    changeType := TicketChangeType.PriorityChange
    oldValue := HistoryValue.priorityVal oldPriority
    newValue := HistoryValue.priorityVal newPriority }

/-- The row built by `AssignmentService.recordAssigneeChange` (actor is
always recorded as STAFF). -/
def assigneeChangeRow (actorId : String) (ticketId : String)
    (oldAssignee newAssignee : Option String) : TicketHistory :=
  { ticketId := ticketId
    changedByType := MessageAuthorType.Staff
    changedById := some actorId
    changeType := TicketChangeType.AssigneeChange
    oldValue := HistoryValue.assigneeVal oldAssignee
    newValue := HistoryValue.assigneeVal newAssignee }

/-- The row built by `AssignmentService.recordTeamChange`. -/
def teamChangeRow (actorId : String) (ticketId : String)
    (oldTeam newTeam : Option String) : TicketHistory :=
  { ticketId := ticketId
    changedByType := MessageAuthorType.Staff
    changedById := some actorId
    changeType := TicketChangeType.TeamChange
    oldValue := HistoryValue.teamVal oldTeam
    newValue := HistoryValue.teamVal newTeam }

/-- The row built by `AssignmentService.recordDepartmentChange`. -/
def departmentChangeRow (actorId : String) (ticketId : String)
    (oldDept newDept : String) : TicketHistory :=
  { ticketId := ticketId
    changedByType := MessageAuthorType.Staff
    changedById := some actorId
    changeType := TicketChangeType.DepartmentChange
    oldValue := HistoryValue.departmentVal oldDept
    newValue := HistoryValue.departmentVal newDept }

/-- Go `service.TicketCreateInput`.  `priority = unset` models the
empty-string priority of an input that did not supply one. -/
structure TicketCreateInput where
  departmentId : String
  teamId : Option String
  title : String
  description : String
  priority : TicketPriority
  tags : List String
deriving DecidableEq, Repr

/-- A mutating engine call is summarised by the ticket row it writes and
the history rows it appends (in call order); errors short-circuit. -/
abbrev MutationResult := Except SvcError (Ticket × List TicketHistory)

/-- The `domain.Ticket` literal built in `CreateTicket`, including the
trailing `if ticket.Priority == ""` priority default. -/
def mkCreatedTicket (userId : String) (input : TicketCreateInput)
    (teamId : Option String) (uuidStr : String) : Ticket :=
  let t : Ticket :=
    { id := ""
      externalKey := generateTicketKey uuidStr
      requesterId := userId
      departmentId := input.departmentId
      teamId := teamId
      assigneeId := none
      title := input.title.trim
      description := input.description.trim
      status := TicketStatus.Open
      priority := input.priority
      tags := input.tags
      createdAt := 0
      updatedAt := 0
      closedAt := none }
  if t.priority = TicketPriority.unset then
    { t with priority := TicketPriority.Medium }
  else t

/-- Go `TicketService.CreateTicket`.  `dept` / `team` are the repository
answers for `departments.GetByID(input.DepartmentID)` and (when
`input.teamId` is set) `teams.GetByID(*input.TeamID)`; `none` models the
repository error for a missing row.  The database-assigned `ID`,
`CreatedAt` and `UpdatedAt` of the inserted row stay at their zero
values here, as in the in-memory struct before the INSERT returns.
`CreateTicket` records no history row, hence the empty list. -/
def CreateTicket (userId : String) (input : TicketCreateInput)
    (dept : Option Department) (team : Option Team) (uuidStr : String) :
    MutationResult :=
  match dept with
  | none => Except.error (SvcError.notFound "department")
  | some d =>
    if !d.isActive then Except.error (SvcError.message "department inactive")
    else
      match input.teamId with
      | some tid =>
        match team with
        | none => Except.error (SvcError.notFound "team")
        | some tm =>
          if !tm.isActive then Except.error (SvcError.message "team inactive")
          else if tm.departmentId ≠ input.departmentId then
            Except.error (SvcError.message "team not part of department")
          else Except.ok (mkCreatedTicket userId input (some tid) uuidStr, [])
      | none => Except.ok (mkCreatedTicket userId input none uuidStr, [])

/-- Go `TicketService.UpdateStatus`.  `ticket` is the repository answer for
`tickets.GetByID(ticketID)`; `now` is the `time.Now()` sample taken when
the new status is CLOSED. -/
def UpdateStatus (staff : Option StaffMember) (ticket : Option Ticket)
    (newStatus : TicketStatus) (comment : String) (now : Nat) : MutationResult :=
  match staff with
  | none => Except.error (SvcError.message "staff required")
  | some st =>
    match ticket with
    | none => Except.error (SvcError.notFound "ticket")
    | some t =>
      if !staffCanAccessTicket (some st) t then
        Except.error (SvcError.message "access denied")
      else if !isValidTransition t.status newStatus then
        Except.error (SvcError.message "invalid status transition")
      else
        let oldStatus := t.status
        let t1 :=
          if newStatus = TicketStatus.Closed then { t with closedAt := some now }
          else if t.closedAt ≠ none then { t with closedAt := none }
          else t
        let t2 := { t1 with status := newStatus }
        Except.ok (t2,
          [statusChangeRow MessageAuthorType.Staff (some st.id) t.id oldStatus newStatus comment])

/-- Go `TicketService.UpdatePriority`. -/
def UpdatePriority (staff : Option StaffMember) (ticket : Option Ticket)
    (newPriority : TicketPriority) : MutationResult :=
  match staff with
  | none => Except.error (SvcError.message "staff required")
  | some st =>
    match ticket with
    | none => Except.error (SvcError.notFound "ticket")
    | some t =>
      if !staffCanAccessTicket (some st) t then
        Except.error (SvcError.message "access denied")
      else
        let oldPriority := t.priority
        let t1 := { t with priority := newPriority }
        Except.ok (t1,
          [priorityChangeRow MessageAuthorType.Staff (some st.id) t.id oldPriority newPriority])

/-- Go `TicketService.CloseTicketAsUser`. -/
def CloseTicketAsUser (userId : String) (ticket : Option Ticket) (now : Nat) :
    MutationResult :=
  match ticket with
  | none => Except.error (SvcError.notFound "ticket")
  | some t =>
    if t.requesterId ≠ userId then
      Except.error (SvcError.message "access denied")
    else if t.status ≠ TicketStatus.Resolved ∧ t.status ≠ TicketStatus.PendingUser then
      Except.error (SvcError.message "ticket cannot be closed in current status")
    else
      let oldStatus := t.status
      let t1 := { t with status := TicketStatus.Closed, closedAt := some now }
      Except.ok (t1,
        [statusChangeRow MessageAuthorType.User (some userId) t.id oldStatus t1.status "user_closed"])

/-- Go `TicketService.messagesWithAttachments`: the messages of the ticket
with each message's attachment rows populated.  `msgs` is the repository
answer for `messages.ListByTicket`; `attFor` is the repository answer
for `attachments.ListByMessage` keyed by message id. -/
def messagesWithAttachments (msgs : List TicketMessage)
    (attFor : String → List AttachmentReference) : List TicketMessage :=
  msgs.map (fun m => { m with attachments := attFor m.id })

/-- Go `TicketService.visibleMessagesForUser`: drop INTERNAL_NOTE messages. -/
def visibleMessagesForUser (msgs : List TicketMessage)
    (attFor : String → List AttachmentReference) : List TicketMessage :=
  (messagesWithAttachments msgs attFor).filter
    (fun m => m.messageType ≠ TicketMessageType.InternalNote)

/-- Go `TicketService.GetTicketForUser`: ownership check, then the
user-visible messages. -/
def GetTicketForUser (userId : String) (ticket : Option Ticket)
    (msgs : List TicketMessage) (attFor : String → List AttachmentReference) :
    Except SvcError (Ticket × List TicketMessage) :=
  match ticket with
  | none => Except.error (SvcError.notFound "ticket")
  | some t =>
    if t.requesterId ≠ userId then Except.error (SvcError.message "access denied")
    else Except.ok (t, visibleMessagesForUser msgs attFor)

/-- Go `TicketService.GetTicketForStaff`: scope check, then all messages
(internal notes included) with attachments populated. -/
def GetTicketForStaff (staff : Option StaffMember) (ticket : Option Ticket)
    (msgs : List TicketMessage) (attFor : String → List AttachmentReference) :
    Except SvcError (Ticket × List TicketMessage) :=
  match ticket with
  | none => Except.error (SvcError.notFound "ticket")
  | some t =>
    if !staffCanAccessTicket staff t then
      Except.error (SvcError.message "access denied")
    else Except.ok (t, messagesWithAttachments msgs attFor)

/-- Go `TicketService.AddMessage`.  Attachment persistence is modelled as
infallible; the attachment rows created are appended to the returned
message exactly as the Go loop does. -/
def AddMessage (actor : SubjectType) (actorId : String)
    (staff : Option StaffMember) (ticket : Option Ticket)
    (messageType : TicketMessageType) (body : String)
    (attachments : List MessageAttachmentInput) :
    Except SvcError TicketMessage :=
  match ticket with
  | none => Except.error (SvcError.notFound "ticket")
  | some t =>
    let check : Option SvcError :=
      match actor with
      | SubjectType.User =>
        if t.requesterId ≠ actorId then some (SvcError.message "access denied")
        else if messageType ≠ TicketMessageType.PublicReply then
          some (SvcError.message "users can only post public replies")
        else none
      | SubjectType.Staff =>
        match staff with
        | none => some (SvcError.message "staff context required")
        | some st =>
          if !staffCanAccessTicket (some st) t then
            some (SvcError.message "access denied")
          else if messageType ≠ TicketMessageType.PublicReply ∧
              messageType ≠ TicketMessageType.InternalNote then
            some (SvcError.message "invalid message type for staff")
          else none
    match check with
    | some e => Except.error e
    | none =>
      let base : TicketMessage :=
        { id := ""
          ticketId := t.id
          authorType := MessageAuthorType.User
          authorId := none
          messageType := messageType
          body := body.trim
          attachments := [] }
      let msg :=
        match actor with
        | SubjectType.User =>
          { base with authorType := MessageAuthorType.User
                      authorId := some t.requesterId }
        | SubjectType.Staff =>
          { base with authorType := MessageAuthorType.Staff
                      authorId := staff.map (fun (st : StaffMember) => st.id) }
      let records := attachments.map (fun a =>
        ({ id := ""
           ticketMessageId := msg.id
           storageKey := a.storageKey
           fileName := a.fileName
           mimeType := a.mimeType
           sizeBytes := a.sizeBytes } : AttachmentReference))
      Except.ok { msg with attachments := records }

/-- Go `ticketHistoryRepository.ListByTicket(ticketID, limit, offset)`
(staff_repository.go): the SQL is
`ORDER BY created_at DESC LIMIT limit OFFSET offset`, with
`limit <= 0 -> 50` and `offset < 0 -> 0` normalisation.  `rows` stands
for the ticket's full history, most-recent-first, as the ORDER BY
returns it. -/
def listByTicketPage (rows : List TicketHistory) (limit offset : Int) :
    List TicketHistory :=
  let l : Int := if limit ≤ 0 then 50 else limit
  let o : Int := if offset < 0 then 0 else offset
  (rows.drop o.toNat).take l.toNat

/-- The changeType filter of `ListHistoryForUser`. -/
def userVisibleChange (ct : TicketChangeType) : Bool :=
  ct = TicketChangeType.StatusChange ∨ ct = TicketChangeType.AssigneeChange ∨
    ct = TicketChangeType.TeamChange

/-- Go `TicketService.ListHistoryForUser`: ownership check, one page of
history fetched with `limit = 100, offset = 0`, then the changeType
filter.  (The Go guard for a nil history repository is not modelled:
the store is always present here.) -/
def ListHistoryForUser (userId : String) (ticket : Option Ticket)
    (rows : List TicketHistory) : Except SvcError (List TicketHistory) :=
  match ticket with
  | none => Except.error (SvcError.notFound "ticket")
  | some t =>
    if t.requesterId ≠ userId then Except.error (SvcError.message "access denied")
    else
      Except.ok ((listByTicketPage rows 100 0).filter
        (fun e => userVisibleChange e.changeType))

/-- Go `TicketService.ListHistoryForStaff`: scope check, then one page. -/
def ListHistoryForStaff (staff : Option StaffMember) (ticket : Option Ticket)
    (rows : List TicketHistory) (limit offset : Int) :
    Except SvcError (List TicketHistory) :=
  match staff with
  | none => Except.error (SvcError.message "staff required")
  | some st =>
    match ticket with
    | none => Except.error (SvcError.notFound "ticket")
    | some t =>
      if !staffCanAccessTicket (some st) t then
        Except.error (SvcError.message "access denied")
      else Except.ok (listByTicketPage rows limit offset)

/-- Helper `requireAssignPriv` of the assignment service. -/
def requireAssignPriv : Option StaffMember → Option SvcError
  | none => some (SvcError.unauthorized "staff required")
  | some staff =>
    if staff.role ≠ StaffRole.TeamLead ∧ staff.role ≠ StaffRole.Admin then
      some (SvcError.forbidden "insufficient role for assignment")
    else none

/-- Go `AssignmentService.SelfAssignTicket`. -/
def SelfAssignTicket (staff : Option StaffMember) (ticket : Option Ticket) :
    MutationResult :=
  match staff with
  | none => Except.error (SvcError.unauthorized "staff required")
  | some st =>
    if st.role ≠ StaffRole.Agent ∧ st.role ≠ StaffRole.TeamLead ∧
        st.role ≠ StaffRole.Admin then
      Except.error (SvcError.forbidden "insufficient role for self assign")
    else
      match ticket with
      | none => Except.error (SvcError.notFound "ticket")
      | some t =>
        if !staffCanAccess (some st) t then
          Except.error (SvcError.forbidden "access denied")
        else
          let oldAssignee := t.assigneeId
          let t1 := { t with assigneeId := some st.id }
          Except.ok (t1, [assigneeChangeRow st.id t.id oldAssignee t1.assigneeId])

/-- Go `AssignmentService.AssignTicketToStaff`.  `assignee` is the
repository answer for `staff.GetByID(assigneeStaffID)`. -/
def AssignTicketToStaff (actor : Option StaffMember)
    (assignee : Option StaffMember) (ticket : Option Ticket) : MutationResult :=
  match requireAssignPriv actor with
  | some e => Except.error e
  | none =>
    match actor with
    | none => Except.error (SvcError.unauthorized "staff required")
    | some act =>
      match assignee with
      | none => Except.error (SvcError.notFound "staff")
      | some asg =>
        if !asg.active then Except.error (SvcError.conflict "assignee inactive")
        else
          match ticket with
          | none => Except.error (SvcError.notFound "ticket")
          | some t =>
            if !staffCanAccess (some act) t then
              Except.error (SvcError.forbidden "access denied")
            else if !staffMatchesTicketScope (some asg) t ∧
                act.role ≠ StaffRole.Admin then
              Except.error (SvcError.forbidden "assignee outside ticket scope")
            else
              let oldAssignee := t.assigneeId
              let t1 := { t with assigneeId := some asg.id }
              Except.ok (t1, [assigneeChangeRow act.id t.id oldAssignee t1.assigneeId])

/-- Go `AssignmentService.AssignTicketToTeam`.  `team` is the repository
answer for `teams.GetByID(teamID)`.  The history list is the TEAM_CHANGE
row followed by a DEPARTMENT_CHANGE row exactly when the department
actually changed. -/
def AssignTicketToTeam (actor : Option StaffMember) (team : Option Team)
    (ticket : Option Ticket) : MutationResult :=
  match requireAssignPriv actor with
  | some e => Except.error e
  | none =>
    match actor with
    | none => Except.error (SvcError.unauthorized "staff required")
    | some act =>
      match team with
      | none => Except.error (SvcError.notFound "team")
      | some tm =>
        if !tm.isActive then Except.error (SvcError.conflict "team inactive")
        else
          match ticket with
          | none => Except.error (SvcError.notFound "ticket")
          | some t =>
            if !staffCanAccess (some act) t then
              Except.error (SvcError.forbidden "access denied")
            else
              let oldTeam := t.teamId
              let oldDept := t.departmentId
              let t1 := { t with teamId := some tm.id
                                 departmentId := tm.departmentId
                                 assigneeId := none }
              Except.ok (t1,
                teamChangeRow act.id t.id oldTeam t1.teamId ::
                  (if oldDept ≠ tm.departmentId then
                    [departmentChangeRow act.id t.id oldDept t1.departmentId]
                  else []))

/-- Go `AssignmentService.AutoAssignTicket`.  `team` is the repository
answer for `teams.GetByID(teamID)`; `staffList` is the repository answer
for `staff.List` with the filter `TeamID = teamID, Active = true,
Limit = 1000`; `ticket` is the `tickets.GetByID(ticketID)` answer.  The
code checks the roster before fetching the ticket, sorts it by creation
time ascending, then picks index `selectIndex(ticket.ID, len)`. -/
def AutoAssignTicket (team : Option Team) (staffList : List StaffMember)
    (ticket : Option Ticket) : MutationResult :=
  match team with
  | none => Except.error (SvcError.notFound "team")
  | some tm =>
    if !tm.isActive then Except.error (SvcError.conflict "team inactive")
    else if staffList.length = 0 then
      Except.error (SvcError.conflict "no eligible staff for team")
    else
      let sorted := sortStaff staffList
      match ticket with
      | none => Except.error (SvcError.notFound "ticket")
      | some t =>
        let index := selectIndex t.id sorted.length
        match sorted.get? index with
        | none => Except.error SvcError.infra
        | some assignee =>
          let oldAssignee := t.assigneeId
          let oldTeam := t.teamId
          let oldDept := t.departmentId
          let t1 := { t with teamId := some tm.id
                             departmentId := tm.departmentId
                             assigneeId := some assignee.id }
          Except.ok (t1,
            (teamChangeRow assignee.id t.id oldTeam t1.teamId ::
              (if oldDept ≠ tm.departmentId then
                [departmentChangeRow assignee.id t.id oldDept t1.departmentId]
              else [])) ++
              [assigneeChangeRow assignee.id t.id oldAssignee t1.assigneeId])

/-- The observable store state a single-ticket engine call acts on: the
ticket row plus the ticket's history rows, most-recent-first (the order
`ORDER BY created_at DESC` returns them in). -/
structure EngineState where
  ticket : Ticket
  historyRows : List TicketHistory
deriving DecidableEq, Repr

/-- Applying a mutation outcome to the store: an error leaves the store
untouched, a success replaces the ticket row and prepends the appended
history rows (newest first). -/
def applyOutcome (st : EngineState) (r : MutationResult) : EngineState :=
  match r with
  | Except.error _ => st
  | Except.ok (t1, entries) => ⟨t1, entries.reverse ++ st.historyRows⟩

deriving instance DecidableEq for Except

/-- What a fallible execution of one mutating call leaves behind:
whether `tickets.Update` committed, which history rows committed, and
the value returned to the caller. -/
structure PersistOutcome where
  ticketPersisted : Bool
  persistedHistory : List TicketHistory
  result : MutationResult
deriving DecidableEq, Repr

/-- Walk the history rows a call wants to append, against a schedule of
per-insert success flags (a missing flag means the insert fails).
Returns the rows actually committed and whether all inserts succeeded;
the walk stops at the first failed insert, as the Go code returns on the
first `history.Create` error. -/
def persistHistory : List TicketHistory → List Bool → List TicketHistory × Bool
  | [], _ => ([], true)
  | _ :: _, [] => ([], false)
  | e :: es, ok :: oks =>
    if ok then
      let rest := persistHistory es oks
      (e :: rest.1, rest.2)
    else ([], false)

/-- The write sequence shared by every mutating engine operation
(`UpdateStatus`, `UpdatePriority`, `CloseTicketAsUser`,
`SelfAssignTicket`, `AssignTicketToStaff`, `AssignTicketToTeam`,
`AutoAssignTicket`): first `tickets.Update`, then one `history.Create`
per appended row, each a separate repository call with no surrounding
transaction; any failure returns the error to the caller with the
earlier writes already committed. -/
def persistMutation (outcome : MutationResult) (updateOk : Bool)
    (histOks : List Bool) : PersistOutcome :=
  match outcome with
  | Except.error e => ⟨false, [], Except.error e⟩
  | Except.ok (t1, entries) =>
    if !updateOk then ⟨false, [], Except.error SvcError.infra⟩
    else
      let walked := persistHistory entries histOks
      if walked.2 then ⟨true, entries, Except.ok (t1, entries)⟩
      else ⟨true, walked.1, Except.error SvcError.infra⟩

/-! Specification-side vocabulary: the externalKey pattern of the spec,
the character shape of a `uuid.NewString()` result, and the
closedAt/status consistency predicate. -/

/-- The sixteen characters of the class `[0-9a-f]`. -/
def lowerHexDigits : List Char := "0123456789abcdef".data

/-- The sixteen characters of the class `[0-9A-F]`. -/
def upperHexDigits : List Char := "0123456789ABCDEF".data

def isLowerHexDigit (c : Char) : Bool := decide (c ∈ lowerHexDigits)

def isUpperHexDigit (c : Char) : Bool := decide (c ∈ upperHexDigits)

/-- The regular expression `^TCK-[0-9A-F]{8}$` of the spec: four literal
prefix characters, then exactly eight uppercase hex digits. -/
def matchesTicketKeyPattern (s : String) : Bool :=
  match s.data with
  | c1 :: c2 :: c3 :: c4 :: rest =>
    c1 == 'T' && c2 == 'C' && c3 == 'K' && c4 == '-' &&
      rest.length == 8 && rest.all isUpperHexDigit
  | _ => false

/-- The character shape of a `uuid.NewString()` result, as far as
`generateTicketKey` relies on it: every character is a lowercase hex
digit or a dash, and at least eight characters are not dashes (a UUID
string has 32). -/
def uuidLikeChars (s : String) : Prop :=
  (∀ c ∈ s.data, isLowerHexDigit c = true ∨ c = '-') ∧
    8 ≤ (s.data.filter (fun c => c ≠ '-')).length

/-- The implicit invariant of claim C9: `closedAt` is set exactly on
CLOSED tickets. -/
def closedAtConsistent (t : Ticket) : Prop :=
  t.closedAt ≠ none ↔ t.status = TicketStatus.Closed

/-! Concrete fixtures used by the witness theorems. -/

def adminFixture : StaffMember :=
  { id := "staff-admin", role := StaffRole.Admin, departmentId := none,
    teamId := none, active := true, createdAt := 1 }

def leadFixture : StaffMember :=
  { id := "staff-lead", role := StaffRole.TeamLead, departmentId := some "dep-1",
    teamId := some "team-1", active := true, createdAt := 2 }

def agentFixture : StaffMember :=
  { id := "staff-agent", role := StaffRole.Agent, departmentId := some "dep-2",
    teamId := some "team-2", active := true, createdAt := 3 }

def teamFixture : Team :=
  { id := "team-1", departmentId := "dep-1", isActive := true }

def deptFixture : Department := { id := "dep-1", isActive := true }

def ticketFixture : Ticket :=
  { id := "tk-1", externalKey := "TCK-00000000", requesterId := "user-1",
    departmentId := "dep-1", teamId := some "team-1", assigneeId := none,
    title := "printer on fire", description := "smoke everywhere",
    status := TicketStatus.Open, priority := TicketPriority.Medium,
    tags := ["hw"], createdAt := 10, updatedAt := 10, closedAt := none }

def closedTicketFixture : Ticket :=
  { ticketFixture with status := TicketStatus.Closed, closedAt := some 20 }

def resolvedTicketFixture : Ticket :=
  { ticketFixture with status := TicketStatus.Resolved }

/-! Shared helper lemmas. -/

theorem staffTeamMatches_iff (st : StaffMember) (t : Ticket) :
    staffTeamMatches st t = true ↔ ∃ x, st.teamId = some x ∧ t.teamId = some x := by
  cases h1 : st.teamId <;> cases h2 : t.teamId
  · simp [staffTeamMatches, h1, h2]
  · simp [staffTeamMatches, h1, h2]
  · simp [staffTeamMatches, h1, h2]
  · simp [staffTeamMatches, h1, h2]
    exact eq_comm

theorem staffDeptMatches_iff (st : StaffMember) (t : Ticket) :
    staffDeptMatches st t = true ↔ st.departmentId = some t.departmentId := by
  cases h : st.departmentId <;> simp [staffDeptMatches, h]

theorem staffCanAccessTicket_true_iff (st : StaffMember) (t : Ticket) :
    staffCanAccessTicket (some st) t = true ↔
      (st.role = StaffRole.Admin ∨
        (∃ x, st.teamId = some x ∧ t.teamId = some x) ∨
        st.departmentId = some t.departmentId) := by
  rw [← staffTeamMatches_iff, ← staffDeptMatches_iff]
  show (if st.role = StaffRole.Admin then true
    else if staffTeamMatches st t then true
    else if staffDeptMatches st t then true else false) = true ↔ _
  split_ifs with h1 h2 h3
  · simp [h1]
  · simp [h2]
  · simp [h3]
  · simp [h1, h2, h3]

theorem staffCanAccess_eq (ms : Option StaffMember) (t : Ticket) :
    staffCanAccess ms t = staffCanAccessTicket ms t := by
  cases ms <;> rfl

/-- A terminal status has an empty allowed-transition list. -/
theorem isValidTransition_terminal (x : TicketStatus) :
    isValidTransition TicketStatus.Closed x = false ∧
      isValidTransition TicketStatus.Cancelled x = false := by
  cases x <;> exact ⟨rfl, rfl⟩

/-- Claim C4: the CLOSED and CANCELLED states have no outgoing
transitions — `isValidTransition` rejects every target from either
state, so `UpdateStatus` never succeeds on a ticket whose current status
is CLOSED or CANCELLED. -/
theorem terminal_states_have_no_outgoing_transitions (x : TicketStatus) :
    isValidTransition TicketStatus.Closed x = false ∧
    isValidTransition TicketStatus.Cancelled x = false ∧
    (∀ (staff : Option StaffMember) (t : Ticket) (comment : String) (now : Nat),
      t.status = TicketStatus.Closed ∨ t.status = TicketStatus.Cancelled →
      ∀ t1 es, UpdateStatus staff (some t) x comment now ≠ Except.ok (t1, es)) := by
  refine ⟨(isValidTransition_terminal x).1, (isValidTransition_terminal x).2, ?_⟩
  intro staff t comment now hterm t1 es
  have hinv : isValidTransition t.status x = false := by
    rcases hterm with h | h <;> rw [h]
    · exact (isValidTransition_terminal x).1
    · exact (isValidTransition_terminal x).2
  cases staff with
  | none => simp [UpdateStatus]
  | some st =>
    simp only [UpdateStatus]
    split
    · simp
    · simp [hinv]

/-- Witness for C4: a concrete admin cannot move a CLOSED ticket back to
OPEN. -/
theorem terminal_states_have_no_outgoing_transitions_witness :
    UpdateStatus (some adminFixture) (some closedTicketFixture)
        TicketStatus.Open "" 0 ≠ Except.ok (ticketFixture, []) :=
  (terminal_states_have_no_outgoing_transitions TicketStatus.Open).2.2
    (some adminFixture) closedTicketFixture "" 0 (Or.inl rfl) ticketFixture []

/-- Claim C3: the access check (`staffCanAccessTicket`, and its verbatim
copy `staffCanAccess` in the assignment service) returns true exactly
when the staff member is an ADMIN, or has a team id equal to the
ticket's team id, or has a department id equal to the ticket's
department id; consequently a non-ADMIN staff member matching neither
the ticket's team nor its department receives the access-denied error
from `AddMessage`, `UpdateStatus`, `UpdatePriority` and
`GetTicketForStaff`. -/
theorem access_scope_iff_and_denial :
    (∀ (st : StaffMember) (t : Ticket),
      (staffCanAccessTicket (some st) t = true ↔
        (st.role = StaffRole.Admin ∨
          (∃ x, st.teamId = some x ∧ t.teamId = some x) ∨
          st.departmentId = some t.departmentId)) ∧
      staffCanAccess (some st) t = staffCanAccessTicket (some st) t) ∧
    (∀ (st : StaffMember) (t : Ticket),
      st.role ≠ StaffRole.Admin →
      (∀ x, ¬(st.teamId = some x ∧ t.teamId = some x)) →
      st.departmentId ≠ some t.departmentId →
      (∀ ns c now, UpdateStatus (some st) (some t) ns c now =
        Except.error (SvcError.message "access denied")) ∧
      (∀ np, UpdatePriority (some st) (some t) np =
        Except.error (SvcError.message "access denied")) ∧
      (∀ mt body atts, AddMessage SubjectType.Staff st.id (some st) (some t) mt body atts =
        Except.error (SvcError.message "access denied")) ∧
      (∀ msgs attFor, GetTicketForStaff (some st) (some t) msgs attFor =
        Except.error (SvcError.message "access denied"))) := by
  refine ⟨fun st t => ⟨staffCanAccessTicket_true_iff st t, staffCanAccess_eq (some st) t⟩, ?_⟩
  intro st t hadmin hteam hdept
  have hacc : staffCanAccessTicket (some st) t = false := by
    rw [Bool.eq_false_iff]
    intro hc
    rcases (staffCanAccessTicket_true_iff st t).mp hc with h | ⟨x, hx⟩ | h
    · exact hadmin h
    · exact hteam x hx
    · exact hdept h
  refine ⟨?_, ?_, ?_, ?_⟩
  · intro ns c now
    simp [UpdateStatus, hacc]
  · intro np
    simp [UpdatePriority, hacc]
  · intro mt body atts
    simp [AddMessage, hacc]
  · intro msgs attFor
    simp [GetTicketForStaff, hacc]

/-- Witness for C3: a concrete agent scoped to team-2/dep-2 is denied on
a team-1/dep-1 ticket. -/
theorem access_scope_iff_and_denial_witness :
    UpdatePriority (some agentFixture) (some ticketFixture) TicketPriority.High =
      Except.error (SvcError.message "access denied") :=
  ((access_scope_iff_and_denial).2 agentFixture ticketFixture
    (by decide)
    (by rintro x ⟨h1, h2⟩; exact absurd (h1.trans h2.symm) (by decide))
    (by decide)).2.1 TicketPriority.High

/-- Claim C7: user-facing reads never expose staff-only content — the
messages returned by `GetTicketForUser` never include an INTERNAL_NOTE,
and the entries returned by `ListHistoryForUser` always have a
changeType among STATUS_CHANGE, ASSIGNEE_CHANGE and TEAM_CHANGE. -/
theorem user_reads_hide_staff_only_content :
    (∀ uid tk msgs attFor t ms,
      GetTicketForUser uid tk msgs attFor = Except.ok (t, ms) →
      ∀ m ∈ ms, m.messageType ≠ TicketMessageType.InternalNote) ∧
    (∀ uid tk rows out,
      ListHistoryForUser uid tk rows = Except.ok out →
      ∀ e ∈ out, e.changeType = TicketChangeType.StatusChange ∨
        e.changeType = TicketChangeType.AssigneeChange ∨
        e.changeType = TicketChangeType.TeamChange) := by
  constructor
  · intro uid tk msgs attFor t ms h m hm
    cases tk with
    | none => simp [GetTicketForUser] at h
    | some t0 =>
      simp only [GetTicketForUser] at h
      split at h
      · simp at h
      · simp only [Except.ok.injEq, Prod.mk.injEq] at h
        obtain ⟨-, h2⟩ := h
        subst h2
        simp only [visibleMessagesForUser, List.mem_filter, decide_eq_true_eq] at hm
        exact hm.2
  · intro uid tk rows out h e he
    cases tk with
    | none => simp [ListHistoryForUser] at h
    | some t0 =>
      simp only [ListHistoryForUser] at h
      split at h
      · simp at h
      · simp only [Except.ok.injEq] at h
        subst h
        have := (List.mem_filter.mp he).2
        simpa [userVisibleChange] using this

def publicReplyFixture : TicketMessage :=
  { id := "m1", ticketId := "tk-1", authorType := MessageAuthorType.User,
    authorId := some "user-1", messageType := TicketMessageType.PublicReply,
    body := "hi", attachments := [] }

def internalNoteFixture : TicketMessage :=
  { id := "m2", ticketId := "tk-1", authorType := MessageAuthorType.Staff,
    authorId := some "staff-lead", messageType := TicketMessageType.InternalNote,
    body := "note", attachments := [] }

/-- Witness for C7: evaluating the user read path on a concrete ticket
whose thread holds one public reply and one internal note. -/
theorem user_reads_hide_staff_only_content_witness :
    ∀ m ∈ [publicReplyFixture],
      m.messageType ≠ TicketMessageType.InternalNote :=
  (user_reads_hide_staff_only_content).1 "user-1" (some ticketFixture)
    [publicReplyFixture, internalNoteFixture]
    (fun _ => []) ticketFixture [publicReplyFixture] (by decide)

/-- Claim C10: `ListHistoryForUser` inspects only the page fetched with
limit 100 and offset 0 — the 100 most recent rows — so no row beyond
that window is ever returned, whatever its changeType. -/
theorem listHistoryForUser_pagination_window :
    ∀ uid t rows out,
      ListHistoryForUser uid (some t) rows = Except.ok out →
      out = (rows.take 100).filter (fun e => userVisibleChange e.changeType) ∧
      ∀ e ∈ out, e ∈ rows.take 100 := by
  intro uid t rows out h
  simp only [ListHistoryForUser] at h
  split at h
  · simp at h
  · simp only [Except.ok.injEq] at h
    subst h
    have hpage : listByTicketPage rows 100 0 = rows.take 100 := rfl
    rw [hpage]
    exact ⟨rfl, fun e he => (List.mem_filter.mp he).1⟩

/-- Witness for C10 at a concrete call. -/
theorem listHistoryForUser_pagination_window_witness :
    ([] : List TicketHistory) =
      (([] : List TicketHistory).take 100).filter
        (fun e => userVisibleChange e.changeType) ∧
    ∀ e ∈ ([] : List TicketHistory), e ∈ ([] : List TicketHistory).take 100 :=
  listHistoryForUser_pagination_window "user-1" ticketFixture [] [] (by decide)

/-- Claim C6: `AutoAssign` against an active team with an empty eligible
roster fails with the Conflict error and leaves the ticket row and the
history rows untouched. -/
theorem autoAssign_empty_roster_no_change (tm : Team) (st : EngineState)
    (hactive : tm.isActive = true) :
    AutoAssignTicket (some tm) [] (some st.ticket) =
      Except.error (SvcError.conflict "no eligible staff for team") ∧
    applyOutcome st (AutoAssignTicket (some tm) [] (some st.ticket)) = st := by
  have h : AutoAssignTicket (some tm) [] (some st.ticket) =
      Except.error (SvcError.conflict "no eligible staff for team") := by
    simp [AutoAssignTicket, hactive]
  exact ⟨h, by rw [h]; rfl⟩

/-- Witness for C6 at a concrete team and store state. -/
theorem autoAssign_empty_roster_no_change_witness :
    applyOutcome ⟨ticketFixture, []⟩
        (AutoAssignTicket (some teamFixture) [] (some ticketFixture)) =
      (⟨ticketFixture, []⟩ : EngineState) :=
  (autoAssign_empty_roster_no_change teamFixture ⟨ticketFixture, []⟩ rfl).2

/-- Claim C1: every successful mutating engine operation appends exactly
one history row of the matching changeType per mutated field, whose old
value is the pre-call field and whose new value is the post-call field;
`AssignTicketToTeam` and `AutoAssignTicket` add the DEPARTMENT_CHANGE
row exactly when the department actually changed, and `AutoAssignTicket`
appends TEAM_CHANGE, optional DEPARTMENT_CHANGE, then ASSIGNEE_CHANGE. -/
theorem mutation_history_pairing :
    (∀ st t ns c now tOut es,
      UpdateStatus (some st) (some t) ns c now = Except.ok (tOut, es) →
      tOut.status = ns ∧
      es = [statusChangeRow MessageAuthorType.Staff (some st.id) t.id
        t.status tOut.status c]) ∧
    (∀ st t np tOut es,
      UpdatePriority (some st) (some t) np = Except.ok (tOut, es) →
      tOut.priority = np ∧
      es = [priorityChangeRow MessageAuthorType.Staff (some st.id) t.id
        t.priority tOut.priority]) ∧
    (∀ uid t now tOut es,
      CloseTicketAsUser uid (some t) now = Except.ok (tOut, es) →
      tOut.status = TicketStatus.Closed ∧
      es = [statusChangeRow MessageAuthorType.User (some uid) t.id
        t.status tOut.status "user_closed"]) ∧
    (∀ st t tOut es,
      SelfAssignTicket (some st) (some t) = Except.ok (tOut, es) →
      tOut.assigneeId = some st.id ∧
      es = [assigneeChangeRow st.id t.id t.assigneeId tOut.assigneeId]) ∧
    (∀ act asg t tOut es,
      AssignTicketToStaff (some act) (some asg) (some t) = Except.ok (tOut, es) →
      tOut.assigneeId = some asg.id ∧
      es = [assigneeChangeRow act.id t.id t.assigneeId tOut.assigneeId]) ∧
    (∀ act tm t tOut es,
      AssignTicketToTeam (some act) (some tm) (some t) = Except.ok (tOut, es) →
      tOut.teamId = some tm.id ∧ tOut.departmentId = tm.departmentId ∧
      tOut.assigneeId = none ∧
      es = teamChangeRow act.id t.id t.teamId tOut.teamId ::
        (if t.departmentId ≠ tm.departmentId then
          [departmentChangeRow act.id t.id t.departmentId tOut.departmentId]
        else [])) ∧
    (∀ tm roster t tOut es,
      AutoAssignTicket (some tm) roster (some t) = Except.ok (tOut, es) →
      ∃ aid, tOut.assigneeId = some aid ∧
        tOut.teamId = some tm.id ∧ tOut.departmentId = tm.departmentId ∧
        es = (teamChangeRow aid t.id t.teamId tOut.teamId ::
          (if t.departmentId ≠ tm.departmentId then
            [departmentChangeRow aid t.id t.departmentId tOut.departmentId]
          else [])) ++
          [assigneeChangeRow aid t.id t.assigneeId tOut.assigneeId]) := by
  refine ⟨?_, ?_, ?_, ?_, ?_, ?_, ?_⟩
  · intro st t ns c now tOut es h
    simp only [UpdateStatus] at h
    split at h
    · simp at h
    split at h
    · simp at h
    simp only [Except.ok.injEq, Prod.mk.injEq] at h
    obtain ⟨rfl, rfl⟩ := h
    exact ⟨rfl, rfl⟩
  · intro st t np tOut es h
    simp only [UpdatePriority] at h
    split at h
    · simp at h
    simp only [Except.ok.injEq, Prod.mk.injEq] at h
    obtain ⟨rfl, rfl⟩ := h
    exact ⟨rfl, rfl⟩
  · intro uid t now tOut es h
    simp only [CloseTicketAsUser] at h
    split at h
    · simp at h
    split at h
    · simp at h
    simp only [Except.ok.injEq, Prod.mk.injEq] at h
    obtain ⟨rfl, rfl⟩ := h
    exact ⟨rfl, rfl⟩
  · intro st t tOut es h
    simp only [SelfAssignTicket] at h
    split at h
    · simp at h
    split at h
    · simp at h
    simp only [Except.ok.injEq, Prod.mk.injEq] at h
    obtain ⟨rfl, rfl⟩ := h
    exact ⟨rfl, rfl⟩
  · intro act asg t tOut es h
    simp only [AssignTicketToStaff] at h
    rcases hp : requireAssignPriv (some act) with _ | e
    · rw [hp] at h
      simp only [] at h
      split at h
      · simp at h
      split at h
      · simp at h
      split at h
      · simp at h
      simp only [Except.ok.injEq, Prod.mk.injEq] at h
      obtain ⟨rfl, rfl⟩ := h
      exact ⟨rfl, rfl⟩
    · rw [hp] at h
      simp at h
  · intro act tm t tOut es h
    simp only [AssignTicketToTeam] at h
    rcases hp : requireAssignPriv (some act) with _ | e
    · rw [hp] at h
      simp only [] at h
      split at h
      · simp at h
      split at h
      · simp at h
      simp only [Except.ok.injEq, Prod.mk.injEq] at h
      obtain ⟨rfl, rfl⟩ := h
      exact ⟨rfl, rfl, rfl, rfl⟩
    · rw [hp] at h
      simp at h
  · intro tm roster t tOut es h
    simp only [AutoAssignTicket] at h
    split at h
    · simp at h
    split at h
    · simp at h
    split at h
    · simp at h
    · rename_i assignee hsel
      simp only [Except.ok.injEq, Prod.mk.injEq] at h
      obtain ⟨rfl, rfl⟩ := h
      exact ⟨assignee.id, rfl, rfl, rfl, rfl⟩

def updatedFixture : Ticket :=
  { ticketFixture with status := TicketStatus.InProgress }

def statusRowFixture : TicketHistory :=
  statusChangeRow MessageAuthorType.Staff (some "staff-admin") "tk-1"
    TicketStatus.Open TicketStatus.InProgress "go"

/-- Witness for C1 on the `UpdateStatus` conjunct at a concrete call. -/
theorem mutation_history_pairing_witness :
    updatedFixture.status = TicketStatus.InProgress ∧
    [statusRowFixture] = [statusChangeRow MessageAuthorType.Staff
      (some adminFixture.id) ticketFixture.id ticketFixture.status
      updatedFixture.status "go"] :=
  (mutation_history_pairing).1 adminFixture ticketFixture
    TicketStatus.InProgress "go" 5 updatedFixture [statusRowFixture] (by decide)

/-- Field-level description of the ticket literal built by `CreateTicket`. -/
theorem mkCreatedTicket_fields (uid : String) (input : TicketCreateInput)
    (tid : Option String) (u : String) :
    (mkCreatedTicket uid input tid u).status = TicketStatus.Open ∧
    (mkCreatedTicket uid input tid u).closedAt = none ∧
    (mkCreatedTicket uid input tid u).title = input.title.trim ∧
    (mkCreatedTicket uid input tid u).description = input.description.trim ∧
    (mkCreatedTicket uid input tid u).externalKey = generateTicketKey u ∧
    (input.priority = TicketPriority.unset →
      (mkCreatedTicket uid input tid u).priority = TicketPriority.Medium) := by
  by_cases hp : input.priority = TicketPriority.unset <;>
    simp [mkCreatedTicket, hp]

/-- Every success of `CreateTicket` returns the `mkCreatedTicket`
literal and records no history row. -/
theorem CreateTicket_ok_ticket (uid : String) (input : TicketCreateInput)
    (dept : Option Department) (team : Option Team) (u : String)
    (t : Ticket) (es : List TicketHistory)
    (h : CreateTicket uid input dept team u = Except.ok (t, es)) :
    t = mkCreatedTicket uid input input.teamId u ∧ es = [] := by
  cases dept with
  | none => simp [CreateTicket] at h
  | some d =>
    simp only [CreateTicket] at h
    split at h
    · simp at h
    split at h
    · rename_i tid heq
      repeat' split at h
      all_goals simp only [Except.ok.injEq, Prod.mk.injEq, reduceCtorEq] at h
      all_goals obtain ⟨rfl, rfl⟩ := h
      all_goals exact ⟨by rw [heq], rfl⟩
    · rename_i heq
      simp only [Except.ok.injEq, Prod.mk.injEq] at h
      obtain ⟨rfl, rfl⟩ := h
      exact ⟨by rw [heq], rfl⟩

/-- Claim C9: `closedAt` is set exactly on CLOSED tickets —
`CreateTicket` starts OPEN with `closedAt = none`, `UpdateStatus` sets
`closedAt` exactly when the target status is CLOSED and clears it
otherwise, `CloseTicketAsUser` sets CLOSED and `closedAt` together, and
priority and assignment operations touch neither `status` nor
`closedAt`. -/
theorem closedAt_iff_closed_invariant :
    (∀ uid input dept team u t es,
      CreateTicket uid input dept team u = Except.ok (t, es) →
      t.status = TicketStatus.Open ∧ t.closedAt = none ∧ closedAtConsistent t) ∧
    (∀ st t ns c now tOut es,
      UpdateStatus (some st) (some t) ns c now = Except.ok (tOut, es) →
      (tOut.closedAt ≠ none ↔ ns = TicketStatus.Closed) ∧ closedAtConsistent tOut) ∧
    (∀ uid t now tOut es,
      CloseTicketAsUser uid (some t) now = Except.ok (tOut, es) →
      tOut.status = TicketStatus.Closed ∧ tOut.closedAt = some now ∧
        closedAtConsistent tOut) ∧
    (∀ st t np tOut es,
      UpdatePriority (some st) (some t) np = Except.ok (tOut, es) →
      tOut.status = t.status ∧ tOut.closedAt = t.closedAt) ∧
    (∀ st t tOut es,
      SelfAssignTicket (some st) (some t) = Except.ok (tOut, es) →
      tOut.status = t.status ∧ tOut.closedAt = t.closedAt) ∧
    (∀ act asg t tOut es,
      AssignTicketToStaff (some act) (some asg) (some t) = Except.ok (tOut, es) →
      tOut.status = t.status ∧ tOut.closedAt = t.closedAt) ∧
    (∀ act tm t tOut es,
      AssignTicketToTeam (some act) (some tm) (some t) = Except.ok (tOut, es) →
      tOut.status = t.status ∧ tOut.closedAt = t.closedAt) ∧
    (∀ tm roster t tOut es,
      AutoAssignTicket (some tm) roster (some t) = Except.ok (tOut, es) →
      tOut.status = t.status ∧ tOut.closedAt = t.closedAt) := by
  refine ⟨?_, ?_, ?_, ?_, ?_, ?_, ?_, ?_⟩
  · intro uid input dept team u t es h
    obtain ⟨rfl, -⟩ := CreateTicket_ok_ticket uid input dept team u t es h
    obtain ⟨h1, h2, -⟩ := mkCreatedTicket_fields uid input input.teamId u
    exact ⟨h1, h2, by simp [closedAtConsistent, h1, h2]⟩
  · intro st t ns c now tOut es h
    simp only [UpdateStatus] at h
    split at h
    · simp at h
    split at h
    · simp at h
    simp only [Except.ok.injEq, Prod.mk.injEq] at h
    obtain ⟨rfl, rfl⟩ := h
    by_cases hns : ns = TicketStatus.Closed <;>
      by_cases ht : t.closedAt = none <;>
        simp [closedAtConsistent, hns, ht]
  · intro uid t now tOut es h
    simp only [CloseTicketAsUser] at h
    split at h
    · simp at h
    split at h
    · simp at h
    simp only [Except.ok.injEq, Prod.mk.injEq] at h
    obtain ⟨rfl, rfl⟩ := h
    exact ⟨rfl, rfl, by simp [closedAtConsistent]⟩
  · intro st t np tOut es h
    simp only [UpdatePriority] at h
    split at h
    · simp at h
    simp only [Except.ok.injEq, Prod.mk.injEq] at h
    obtain ⟨rfl, rfl⟩ := h
    exact ⟨rfl, rfl⟩
  · intro st t tOut es h
    simp only [SelfAssignTicket] at h
    split at h
    · simp at h
    split at h
    · simp at h
    simp only [Except.ok.injEq, Prod.mk.injEq] at h
    obtain ⟨rfl, rfl⟩ := h
    exact ⟨rfl, rfl⟩
  · intro act asg t tOut es h
    simp only [AssignTicketToStaff] at h
    rcases hp : requireAssignPriv (some act) with _ | e
    · rw [hp] at h
      simp only [] at h
      split at h
      · simp at h
      split at h
      · simp at h
      split at h
      · simp at h
      simp only [Except.ok.injEq, Prod.mk.injEq] at h
      obtain ⟨rfl, rfl⟩ := h
      exact ⟨rfl, rfl⟩
    · rw [hp] at h
      simp at h
  · intro act tm t tOut es h
    simp only [AssignTicketToTeam] at h
    rcases hp : requireAssignPriv (some act) with _ | e
    · rw [hp] at h
      simp only [] at h
      split at h
      · simp at h
      split at h
      · simp at h
      simp only [Except.ok.injEq, Prod.mk.injEq] at h
      obtain ⟨rfl, rfl⟩ := h
      exact ⟨rfl, rfl⟩
    · rw [hp] at h
      simp at h
  · intro tm roster t tOut es h
    simp only [AutoAssignTicket] at h
    split at h
    · simp at h
    split at h
    · simp at h
    split at h
    · simp at h
    · simp only [Except.ok.injEq, Prod.mk.injEq] at h
      obtain ⟨rfl, rfl⟩ := h
      exact ⟨rfl, rfl⟩

/-- Bound check: `selectIndex` stays inside the roster bounds. -/
theorem selectIndex_lt (key : String) (n : Nat) (h : 0 < n) :
    selectIndex key n < n := by
  unfold selectIndex
  rw [if_neg (Nat.pos_iff_ne_zero.mp h)]
  exact Nat.mod_lt _ h

/-- The sort in `AutoAssignTicket` orders by creation time ascending and
permutes the roster. -/
theorem sortStaff_sorted_perm (roster : List StaffMember) :
    (sortStaff roster).Pairwise (fun a b => a.createdAt ≤ b.createdAt) ∧
    (sortStaff roster).Perm roster := by
  have htrans : ∀ a b c : StaffMember, staffLE a b → staffLE b c → staffLE a c := by
    intro a b c hab hbc
    simp only [staffLE, decide_eq_true_eq] at *
    exact le_trans hab hbc
  have htotal : ∀ a b : StaffMember, staffLE a b || staffLE b a := by
    intro a b
    simpa [staffLE] using Nat.le_total a.createdAt b.createdAt
  constructor
  · have h := List.sorted_mergeSort htrans htotal roster
    simpa [sortStaff, staffLE] using h
  · exact List.mergeSort_perm roster staffLE

/-- A successful `AutoAssignTicket` assigns exactly the roster member at
`selectIndex(ticket.id, count)` of the creation-time-sorted roster. -/
theorem autoAssign_selects (tm : Team) (roster : List StaffMember)
    (t tOut : Ticket) (es : List TicketHistory)
    (h : AutoAssignTicket (some tm) roster (some t) = Except.ok (tOut, es)) :
    ∃ chosen, (sortStaff roster).get? (selectIndex t.id (sortStaff roster).length) =
        some chosen ∧
      tOut.assigneeId = some chosen.id := by
  simp only [AutoAssignTicket] at h
  split at h
  · simp at h
  split at h
  · simp at h
  split at h
  · simp at h
  · rename_i assignee hsel
    simp only [Except.ok.injEq, Prod.mk.injEq] at h
    obtain ⟨rfl, rfl⟩ := h
    exact ⟨assignee, hsel, rfl⟩

/-- Claim C5: auto-assignment is a deterministic pure function of the
ticket id and the ordered roster — the roster is sorted by creation time
ascending (a permutation of the input, pairwise ordered), the selected
index is the sum of the ticket id's character codes modulo the roster
size (always in bounds for a non-empty roster), and two successful runs
with the same ticket id and the same roster pick the same staff
member. -/
theorem autoAssign_deterministic_selection :
    (∀ key n, 0 < n → selectIndex key n < n) ∧
    (∀ roster : List StaffMember,
      (sortStaff roster).Pairwise (fun a b => a.createdAt ≤ b.createdAt) ∧
      (sortStaff roster).Perm roster) ∧
    (∀ tm roster t tOut es,
      AutoAssignTicket (some tm) roster (some t) = Except.ok (tOut, es) →
      ∃ chosen,
        (sortStaff roster).get? (selectIndex t.id (sortStaff roster).length) =
          some chosen ∧
        tOut.assigneeId = some chosen.id) ∧
    (∀ tm roster t t' r r', t.id = t'.id →
      AutoAssignTicket (some tm) roster (some t) = Except.ok r →
      AutoAssignTicket (some tm) roster (some t') = Except.ok r' →
      r.1.assigneeId = r'.1.assigneeId) := by
  refine ⟨selectIndex_lt, sortStaff_sorted_perm,
    fun tm roster t tOut es h => autoAssign_selects tm roster t tOut es h, ?_⟩
  intro tm roster t t' r r' hid h1 h2
  obtain ⟨c1, hc1, ha1⟩ := autoAssign_selects tm roster t r.1 r.2 h1
  obtain ⟨c2, hc2, ha2⟩ := autoAssign_selects tm roster t' r'.1 r'.2 h2
  rw [hid] at hc1
  have hcc : c1 = c2 := Option.some.inj (hc1.symm.trans hc2)
  rw [ha1, ha2, hcc]

/-- Witness for C5 on the index-bound conjunct at a concrete input. -/
theorem autoAssign_deterministic_selection_witness :
    selectIndex "tk-1" 3 < 3 :=
  (autoAssign_deterministic_selection).1 "tk-1" 3 (by decide)

/-- Uppercasing a lowercase hex digit yields an uppercase hex digit. -/
theorem toUpper_lowerHex (c : Char) (h : isLowerHexDigit c = true) :
    isUpperHexDigit c.toUpper = true := by
  have hm : c ∈ lowerHexDigits := of_decide_eq_true h
  have hall : lowerHexDigits.all (fun d => isUpperHexDigit d.toUpper) = true := by
    decide
  exact List.all_eq_true.mp hall c hm

/-- On any uuid-shaped input, `generateTicketKey` produces a key
matching `^TCK-[0-9A-F]{8}$`. -/
theorem generateTicketKey_matches (u : String) (hu : uuidLikeChars u) :
    matchesTicketKeyPattern (generateTicketKey u) = true := by
  obtain ⟨hchars, hlen⟩ := hu
  have hdata : (generateTicketKey u).data =
      'T' :: 'C' :: 'K' :: '-' ::
        ((u.data.filter (fun c => c ≠ '-')).take 8).map Char.toUpper := rfl
  have hlen8 : ((u.data.filter (fun c => c ≠ '-')).take 8).length = 8 := by
    rw [List.length_take]
    exact Nat.min_eq_left hlen
  have hall : ∀ x ∈ ((u.data.filter (fun c => c ≠ '-')).take 8).map Char.toUpper,
      isUpperHexDigit x = true := by
    intro x hx
    rw [List.mem_map] at hx
    obtain ⟨c, hc, rfl⟩ := hx
    have hcmem : c ∈ u.data.filter (fun c => c ≠ '-') := List.take_subset 8 _ hc
    rw [List.mem_filter] at hcmem
    rcases hchars c hcmem.1 with h | h
    · exact toUpper_lowerHex c h
    · exact absurd h (of_decide_eq_true hcmem.2)
  unfold matchesTicketKeyPattern
  rw [hdata]
  simp only [List.all_eq_true, List.length_map, hlen8, Bool.and_eq_true,
    beq_self_eq_true, beq_iff_eq, decide_eq_true_eq, and_true, true_and]
  exact hall

/-- Claim C8: creating a ticket against an existing active department
with no team and no priority supplied succeeds with status OPEN,
priority MEDIUM, trimmed title and description, an externalKey matching
`^TCK-[0-9A-F]{8}$`, and no history row recorded for the creation. -/
theorem createTicket_defaults (uid : String) (input : TicketCreateInput)
    (dept : Department) (team : Option Team) (u : String)
    (hact : dept.isActive = true) (hteam : input.teamId = none)
    (hprio : input.priority = TicketPriority.unset) (hu : uuidLikeChars u) :
    ∃ t, CreateTicket uid input (some dept) team u = Except.ok (t, []) ∧
      t.status = TicketStatus.Open ∧
      t.priority = TicketPriority.Medium ∧
      t.title = input.title.trim ∧
      t.description = input.description.trim ∧
      matchesTicketKeyPattern t.externalKey = true := by
  refine ⟨mkCreatedTicket uid input none u, ?_, ?_⟩
  · simp [CreateTicket, hact, hteam]
  · obtain ⟨h1, -, h3, h4, h5, h6⟩ := mkCreatedTicket_fields uid input none u
    refine ⟨h1, h6 hprio, h3, h4, ?_⟩
    rw [h5]
    exact generateTicketKey_matches u hu

/-- Witness for C8 with a concrete department, input and uuid. -/
theorem createTicket_defaults_witness :
    ∃ t, CreateTicket "user-9"
        { departmentId := "dep-1", teamId := none, title := "  help  ",
          description := " broken ", priority := TicketPriority.unset,
          tags := [] }
        (some deptFixture) none "123e4567-e89b-12d3-a456-426614174000" =
        Except.ok (t, []) ∧
      t.status = TicketStatus.Open ∧
      t.priority = TicketPriority.Medium ∧
      t.title = ("  help  " : String).trim ∧
      t.description = (" broken " : String).trim ∧
      matchesTicketKeyPattern t.externalKey = true :=
  createTicket_defaults "user-9"
    { departmentId := "dep-1", teamId := none, title := "  help  ",
      description := " broken ", priority := TicketPriority.unset, tags := [] }
    deptFixture none "123e4567-e89b-12d3-a456-426614174000"
    rfl rfl rfl (by constructor <;> decide)

def closedAfterUpdateFixture : Ticket :=
  { resolvedTicketFixture with status := TicketStatus.Closed, closedAt := some 42 }

/-- Witness for C9 on the `UpdateStatus` conjunct: closing a RESOLVED
ticket sets `closedAt`. -/
theorem closedAt_iff_closed_invariant_witness :
    (closedAfterUpdateFixture.closedAt ≠ none ↔
      TicketStatus.Closed = TicketStatus.Closed) ∧
    closedAtConsistent closedAfterUpdateFixture :=
  (closedAt_iff_closed_invariant).2.1 adminFixture resolvedTicketFixture
    TicketStatus.Closed "done" 42 closedAfterUpdateFixture
    [statusChangeRow MessageAuthorType.Staff (some "staff-admin") "tk-1"
      TicketStatus.Resolved TicketStatus.Closed "done"]
    (by decide)

/-- Counterexample for C2: a concrete `UpdateStatus` (admin, OPEN →
IN_PROGRESS) whose `tickets.Update` commits and whose single
`history.Create` then fails leaves the ticket mutation persisted with no
matching history row, returning an error — the two writes are
back-to-back repository calls with no transaction, so this outcome
exists and the claimed atomicity does not hold. -/
theorem mutation_not_atomic_counterexample :
    (persistMutation (UpdateStatus (some adminFixture) (some ticketFixture)
        TicketStatus.InProgress "note" 9) true [false]).ticketPersisted = true ∧
    (persistMutation (UpdateStatus (some adminFixture) (some ticketFixture)
        TicketStatus.InProgress "note" 9) true [false]).persistedHistory = [] ∧
    (persistMutation (UpdateStatus (some adminFixture) (some ticketFixture)
        TicketStatus.InProgress "note" 9) true [false]).result =
      Except.error SvcError.infra := by
  decide

/-- Claim C2 (amended): the write sequence of every mutating engine
operation guarantees only one direction — when the call returns success,
the ticket mutation and all its history rows are committed, and a
history row is never committed unless the ticket mutation was; but a
history-insert failure after a successful ticket update leaves the
ticket mutation persisted without its matching history entry (the call
then returns an error). -/
theorem mutation_persistence_guarantees (outcome : MutationResult)
    (updateOk : Bool) (histOks : List Bool) :
    (∀ t1 es,
      (persistMutation outcome updateOk histOks).result = Except.ok (t1, es) →
      (persistMutation outcome updateOk histOks).ticketPersisted = true ∧
      (persistMutation outcome updateOk histOks).persistedHistory = es) ∧
    ((persistMutation outcome updateOk histOks).ticketPersisted = false →
      (persistMutation outcome updateOk histOks).persistedHistory = []) := by
  cases outcome with
  | error e =>
    exact ⟨fun t1 es h => absurd h (by simp [persistMutation]), fun _ => rfl⟩
  | ok pr =>
    obtain ⟨t0, entries⟩ := pr
    cases hu : updateOk with
    | false =>
      exact ⟨fun t1 es h => absurd h (by simp [persistMutation]), fun _ => rfl⟩
    | true =>
      cases hw : (persistHistory entries histOks).2 with
      | true =>
        have hval : persistMutation (Except.ok (t0, entries)) true histOks =
            ⟨true, entries, Except.ok (t0, entries)⟩ := by
          simp [persistMutation, hw]
        rw [hval]
        constructor
        · intro t1 es h
          simp only [Except.ok.injEq, Prod.mk.injEq] at h
          exact ⟨rfl, h.2⟩
        · intro h
          simp at h
      | false =>
        have hval : persistMutation (Except.ok (t0, entries)) true histOks =
            ⟨true, (persistHistory entries histOks).1, Except.error SvcError.infra⟩ := by
          simp [persistMutation, hw]
        rw [hval]
        constructor
        · intro t1 es h
          simp at h
        · intro h
          simp at h

/-- Witness for the amended C2 guarantee at a concrete call that
commits everything. -/
theorem mutation_persistence_guarantees_witness :
    (persistMutation (Except.ok (ticketFixture, ([] : List TicketHistory)))
        true []).ticketPersisted = true ∧
    (persistMutation (Except.ok (ticketFixture, ([] : List TicketHistory)))
        true []).persistedHistory = [] :=
  (mutation_persistence_guarantees (Except.ok (ticketFixture, [])) true []).1
    ticketFixture [] rfl

end TicketSvc
